import Mathlib

/-!
Shallow embedding of the orchestration core of the `srs-techdoc-agent`
repository (FastAPI backend in `backend/main.py`, LangGraph supervisor
workflow in `backend/core/langgraph_supervisor.py`, pipeline glue in
`backend/core/langgraph_pipeline.py`, data model in
`backend/core/models.py`), together with theorems settling the frozen
claims about its specification.

External effects are made explicit: the blocking generation call of each
worker becomes an `Except String String` input (error message or returned
text), the nondeterministic completion order of the thread pool becomes a
`List Role` input, wall-clock readings become `String` inputs, and the
process-wide progress-queue registry becomes a characteristic function of
its key set.
-/

namespace SrsAgent

/-- Python's thousands-separator formatting `f"{n:,}"` for a nonnegative
integer: digits grouped by three from the right, groups joined by commas.
Operates on the reversed digit list. -/
def commaGroupRev : List Char → List Char
  | [] => []
  | [a] => [a]
  | [a, b] => [a, b]
  | [a, b, c] => [a, b, c]
  | a :: b :: c :: d :: rest => a :: b :: c :: ',' :: commaGroupRev (d :: rest)

/-- `f"{n:,}"` for `n : Nat`. -/
def commaFmt (n : Nat) : String :=
  String.mk ((commaGroupRev (toString n).data.reverse).reverse)

example : commaFmt 1234 = "1,234" := by decide
example : commaFmt 999 = "999" := by decide
example : commaFmt 1000000 = "1,000,000" := by decide

/-- The four worker roles of the supervisor workflow
(`langgraph_supervisor.py`): the keys `requirements`, `architecture`,
`api_spec`, `database_schema` of `SupervisorState`. -/
inductive Role where
  | requirements
  | architecture
  | api_spec
  | database_schema
deriving DecidableEq, Repr

/-- The state of one `Optional[str]` entry of the Python `SupervisorState`
TypedDict as seen by `dict.get`: the key can be missing entirely
(`absent`), present with value `None` (`pynone`), or present with a string
(`text`). -/
inductive Slot where
  | absent
  | pynone
  | text (s : String)
deriving DecidableEq, Repr

/-- `f"{state.get(key, default)}"`: the string rendered into an f-string
for a slot.  A missing key renders the default, a `None` value renders as
Python's `str(None) = "None"`, a string renders itself. -/
def slotGet (s : Slot) (default : String) : String :=
  match s with
  | .absent => default
  | .pynone => "None"
  | .text t => t

/-- `backend/core/langgraph_supervisor.py`, `SupervisorState` TypedDict.
The four worker-output entries and `tech_doc` are `Slot`s (Optional[str]
dict entries); the remaining fields are carried verbatim. -/
structure SupervisorState where
  srs_content : String
  project_name : String
  requirements : Slot
  architecture : Slot
  api_spec : Slot
  database_schema : Slot
  tech_doc : Slot
  workers_completed : List String
  workers_pending : List String
  all_workers_done : Bool
  error : Option String
  progress_messages : List String
deriving DecidableEq, Repr

/-- `state[worker_name]` read for a worker role. -/
def getRole (st : SupervisorState) : Role → Slot
  | .requirements => st.requirements
  | .architecture => st.architecture
  | .api_spec => st.api_spec
  | .database_schema => st.database_schema

/-- `state[worker_name] = result` for a worker role. -/
def setRole (st : SupervisorState) (r : Role) (v : Slot) : SupervisorState :=
  match r with
  | .requirements => { st with requirements := v }
  | .architecture => { st with architecture := v }
  | .api_spec => { st with api_spec := v }
  | .database_schema => { st with database_schema := v }

/-- `state["progress_messages"].append(msg)`. -/
def appendMsg (st : SupervisorState) (m : String) : SupervisorState :=
  { st with progress_messages := st.progress_messages ++ [m] }

/-- `worker_labels` dict of `parallel_workers_node`. -/
def workerLabel : Role → String
  | .requirements => "Technical Requirements"
  | .architecture => "System Design"
  | .api_spec => "Software Architecture"
  | .database_schema => "Database Schema"

/-- The body of one worker closure (`run_requirements` / `run_architecture`
/ `run_api` / `run_database`): invoke the external generation call for the
role; a raised exception `e` is caught and encoded as the string
`"Error: " ++ str(e)`, a successful call returns the response content.
The generation call itself is the external input `gen`. -/
def runWorker (gen : Role → Except String String) (r : Role) : String :=
  match gen r with
  | .ok t => t
  | .error e => "Error: " ++ e

/-- `progress_percentage = int((completed_count / total_workers) * 100)`
with `total_workers = 4`.  For `completed_count` in 1..4 the float
arithmetic is exact (quarters are dyadic), so integer division agrees. -/
def pct (completedCount : Nat) : Nat :=
  completedCount * 100 / 4

/-- The per-completion message emitted in the `as_completed` loop of
`parallel_workers_node` for a finished worker. -/
def completionMsg (r : Role) (result : String) (p : Nat) : String :=
  if result.startsWith "Error:" then
    "⚠️ " ++ workerLabel r ++ " failed: " ++ result.take 100
  else
    workerLabel r ++ " completed (" ++ commaFmt result.length ++ " chars) - "
      ++ toString p ++ "% done"

/-- The `for future in concurrent.futures.as_completed(futures)` loop of
`parallel_workers_node`: workers are processed in completion order
(`order`); each result is stored under its role, the completion counter is
bumped, and a `(percent, message)` progress callback is emitted.
Returns the updated state and the list of emitted callbacks. -/
def completionLoop (gen : Role → Except String String) (st : SupervisorState)
    (count : Nat) : List Role → SupervisorState × List (Nat × String)
  | [] => (st, [])
  | r :: rest =>
      let result := runWorker gen r
      let c := count + 1
      let p := pct c
      let msg := completionMsg r result p
      let st1 := appendMsg (setRole st r (.text result)) msg
      let out := completionLoop gen st1 c rest
      (out.1, (p, msg) :: out.2)

/-- The per-completion progress callbacks of one dispatch: the callbacks
emitted inside the `as_completed` loop, in completion order. -/
def completionCallbacks (gen : Role → Except String String)
    (st : SupervisorState) (order : List Role) : List (Nat × String) :=
  (completionLoop gen st 0 order).2

/-- `len(state.get(key, ''))` after the completion loop: every field is a
string there (the loop stores a string for each of the four futures), so
the `None` case is unreachable in the program and mapped to 0. -/
def slotLen (s : Slot) : Nat :=
  match s with
  | .absent => 0
  | .pynone => 0
  | .text t => t.length

/-- `parallel_workers_node` of `LangGraphSupervisorWorkflow`: emits the
three preamble messages, launches the four workers, drains them in
completion order `order`, marks `all_workers_done`, and emits the summary
callback.  `gen` is the external generation call per role, `elapsed` the
wall-clock formatting `f"{elapsed:.1f}"` of the measured duration.  The
`except` arm that would set `state["error"]` is unreachable: every
operation of the `try` body is total (each worker catches its own
exceptions).  The two cosmetic `progress_messages` appends made inside the
`run_api`/`run_database` worker threads interleave nondeterministically
with the main thread and are not modelled; no claim concerns them.
Returns the updated state and the `(percent, message)` callbacks. -/
def parallel_workers_node (st : SupervisorState)
    (gen : Role → Except String String) (order : List Role)
    (elapsed : String) : SupervisorState × List (Nat × String) :=
  let msg1 := "Starting 4 parallel workers with intelligent chunking..."
  let st1 := appendMsg st msg1
  let msg2 := "Processing " ++ commaFmt st.srs_content.length
      ++ " characters of SRS content..."
  let st2 := appendMsg st1 msg2
  let msg3 := "Using full document context for all workers (gpt-4o-mini: 200K TPM)"
  let st3 := appendMsg st2 msg3
  let msg4 := "Starting parallel processing of 4 documentation sections..."
  let st4 := appendMsg st3 msg4
  let (st5, evs) := completionLoop gen st4 0 order
  let st6 := { st5 with all_workers_done := true }
  let totalChars := slotLen st6.requirements + slotLen st6.architecture
      + slotLen st6.api_spec + slotLen st6.database_schema
  let msg5 := "All 4 sections generated in " ++ elapsed ++ "s - Total: "
      ++ commaFmt totalChars ++ " characters"
  let st7 := appendMsg st6 msg5
  (st7, (10, msg1) :: (15, msg2) :: (20, msg3) :: (25, msg4) :: evs ++ [(100, msg5)])

/-- The fixed document template of `compiler_node`: the f-string
assembling the final `tech_doc` from the project name and the four worker
slots, each slot read with `state.get(key, default)` and the defaults of
the source (`database_schema` defaults to the empty string). -/
def compileDoc (name : String) (req arch api db : Slot) : String :=
  "# " ++ name ++ " - Technical Documentation\n\n## Quick Links\n\n| Item | Link |\n|------|------|\n| Project | "
  ++ name
  ++ " |\n\n## About This Document\n\nThe purpose of this technical document is to provide comprehensive technical specifications and architecture documentation for "
  ++ name
  ++ ". This document highlights all technical deliverables, infrastructure decisions, and implementation details.\n\n## Overview of the Project\n\n"
  ++ name
  ++ " is documented herein with complete technical specifications extracted from the Software Requirements Specification (SRS) document.\n\n---\n\n# Technical Requirements\n\n"
  ++ slotGet req "Requirements analysis pending..."
  ++ "\n\n---\n\n# System Design\n\n"
  ++ slotGet arch "System architecture pending..."
  ++ "\n\n---\n\n# Software Architecture\n\n"
  ++ slotGet api "Software architecture pending..."
  ++ "\n\n"
  ++ slotGet db ""
  ++ "\n\n---\n\n## Useful Links\n\n[Additional project resources and documentation links can be added here]\n"

/-- `compiler_node` of `LangGraphSupervisorWorkflow`: emits the 95%
callback, assembles `tech_doc` from the project name and the four worker
slots, and emits the 100% callback.  The `try` body is total (pure string
formatting), so the `except` arm setting `state["error"]` is unreachable
and the error field passes through. -/
def compiler_node (st : SupervisorState) : SupervisorState × List (Nat × String) :=
  let msg := "Compiling final technical documentation..."
  let st1 := appendMsg st msg
  let doc := compileDoc st.project_name st.requirements st.architecture
      st.api_spec st.database_schema
  let st2 := { st1 with tech_doc := .text doc }
  let msg2 := "Final documentation compiled successfully"
  let st3 := appendMsg st2 msg2
  (st3, [(95, msg), (100, msg2)])

/-- `backend/core/models.py`, `UserRole`. -/
structure UserRole where
  name : String
  description : String
  permissions : List String
deriving DecidableEq, Repr

/-- `backend/core/models.py`, `FunctionalRequirement`. -/
structure FunctionalRequirement where
  id : String
  title : String
  description : String
  user_story : Option String
  acceptance_criteria : List String
  priority : Option String
  module : Option String
deriving DecidableEq, Repr

/-- `backend/core/models.py`, `NonFunctionalRequirement`. -/
structure NonFunctionalRequirement where
  category : String
  requirement : String
  measurement : Option String
deriving DecidableEq, Repr

/-- `backend/core/models.py`, `UseCase`. -/
structure UseCase where
  title : String
  actor : String
  preconditions : List String
  main_flow : List String
  postconditions : List String
  alternate_flows : List String
deriving DecidableEq, Repr

/-- `backend/core/models.py`, `ParsedSRS`. -/
structure ParsedSRS where
  project_name : String
  purpose : String
  scope : String
  intended_audience : List String
  functional_requirements : List FunctionalRequirement
  non_functional_requirements : List NonFunctionalRequirement
  user_roles : List UserRole
  product_features : List String
  use_cases : List UseCase
  technology_preferences : List String
  integration_requirements : List String
  operating_platforms : List String
  constraints : List String
  assumptions : List String
deriving DecidableEq, Repr

/-- `backend/core/langgraph_pipeline.py`, `_state_to_parsed_srs`: builds
the "minimal ParsedSRS" stored on a successfully processed project.  The
local `requirements_text = state.get("requirements", "")` of the source is
unused there and not modelled.  Fields not passed explicitly take their
pydantic `default_factory=list` defaults. -/
def state_to_parsed_srs (state : SupervisorState) : ParsedSRS :=
  { project_name := state.project_name
    purpose := "AI-generated technical documentation"
    scope := "Full system scope"
    intended_audience := []
    functional_requirements := []
    non_functional_requirements := []
    user_roles := []
    product_features := []
    use_cases := []
    technology_preferences := []
    integration_requirements := []
    operating_platforms := []
    constraints := []
    assumptions := [] }

/-- `backend/core/models.py`, `ProjectMetadata`: the persisted project
record.  `uploaded_at` is carried as an opaque string. -/
structure Project where
  id : String
  name : String
  uploaded_at : String
  file_name : String
  file_size : Nat
  status : String
  parsed_srs : Option ParsedSRS
  tech_doc : Option String
  progress_message : Option String
  current_chunk : Option Nat
  total_chunks : Option Nat
deriving DecidableEq, Repr

/-- Modelled from the spec: the `ProjectStore` collaborator
(`backend/storage/project_store.py` is not part of the sources).  Spec §6:
"Project store: `Get(id) -> Project?`, `Save(Project)`, `List() ->
[]Project`, `Delete(id) -> bool`" — a synchronous, authoritative keyed
store, modelled as the list of persisted projects. -/
abbrev Store := List Project

/-- Modelled from the spec: `Get(id) -> Project?`. -/
def findProject (store : Store) (pid : String) : Option Project :=
  List.find? (fun p => p.id = pid) store

/-- Modelled from the spec: `Save(Project)` — upsert by id. -/
def saveProject (store : Store) (p : Project) : Store :=
  if (List.any store (fun q => q.id = p.id)) then
    List.map (fun q => if q.id = p.id then p else q) store
  else
    store ++ [p]

/-- Modelled from the spec: `Delete(id) -> bool` — remove the record,
report whether it existed. -/
def deleteFromStore (store : Store) (pid : String) : Store × Bool :=
  (List.filter (fun p => p.id ≠ pid) store, List.any store (fun p => p.id = pid))

/-- The process-wide `progress_queues: Dict[str, Queue]` registry of
`backend/main.py`, modelled by the characteristic function of its key set
(the queue contents are irrelevant to the registry-lifecycle claims). -/
abbrev Registry := String → Bool

/-- `progress_queues[pid]` access on the `defaultdict`: creates the entry. -/
def registryAdd (reg : Registry) (pid : String) : Registry :=
  fun x => if x = pid then true else reg x

/-- `if pid in progress_queues: del progress_queues[pid]`. -/
def registryDel (reg : Registry) (pid : String) : Registry :=
  fun x => if x = pid then false else reg x

/-- The `ProcessingStatus` response model of `backend/main.py` (the
optional progress fields are left unset by the `process` handler). -/
structure ProcessingStatus where
  project_id : String
  status : String
  message : String
  progress_message : Option String
  current_chunk : Option Nat
  total_chunks : Option Nat
deriving DecidableEq, Repr

/-- Outcome of a request handler: a response or an `HTTPException`. -/
inductive HandlerResult (α : Type) where
  | ok (resp : α)
  | httpError (statusCode : Nat) (detail : String)
deriving DecidableEq, Repr

/-- `backend/main.py`, `process_project` (POST
`/projects/{project_id}/process`): look the project up; 404 when missing;
when the status is `"completed"` answer "Project already processed"
without scheduling or saving anything; otherwise schedule
`process_project_task` as a background task (recorded by appending the
project id to `scheduled`), set the status to `"processing"`, save, and
answer "Processing started".  Returns (store, scheduled runs, result). -/
def process_project (store : Store) (scheduled : List String)
    (pid : String) : Store × List String × HandlerResult ProcessingStatus :=
  match findProject store pid with
  | none => (store, scheduled, .httpError 404 "Project not found")
  | some p =>
      if p.status = "completed" then
        (store, scheduled,
          .ok ⟨pid, "completed", "Project already processed", none, none, none⟩)
      else
        let scheduled1 := scheduled ++ [pid]
        let p1 := { p with status := "processing" }
        (saveProject store p1, scheduled1,
          .ok ⟨pid, "processing", "Processing started", none, none, none⟩)

/-- `backend/main.py`, `startup_event`: every persisted project whose
status is `'processing'` or `'parsing'` is forced to `'error'` with the
message `'Processing interrupted - backend restarted'` and saved; all
other projects are untouched.  The routine only rewrites statuses — it
schedules no background work, so no in-flight run is resumed. -/
def startup_event (store : Store) : Store :=
  List.map
    (fun p =>
      if p.status = "processing" ∨ p.status = "parsing" then
        { p with
            status := "error"
            progress_message := some "Processing interrupted - backend restarted" }
      else p)
    store

/-- `backend/main.py`, `reset_project` (POST
`/projects/{project_id}/reset`): 404 when the project is missing;
otherwise clear result and progress fields, return the status to
`'uploaded'`, save, and drop the project's progress-queue registry
entry. -/
def reset_project (store : Store) (reg : Registry) (pid : String) :
    Store × Registry × HandlerResult String :=
  match findProject store pid with
  | none => (store, reg, .httpError 404 "Project not found")
  | some p =>
      let p1 := { p with
        status := "uploaded"
        progress_message := some "Ready to process"
        current_chunk := none
        total_chunks := none
        parsed_srs := none
        tech_doc := none }
      (saveProject store p1, registryDel reg pid,
        .ok "Project reset successfully")

/-- `backend/main.py`, `delete_project` (DELETE `/projects/{project_id}`):
delete from the store (404 when absent).  The handler never touches
`progress_queues`, so the registry is returned unchanged. -/
def delete_project (store : Store) (reg : Registry) (pid : String) :
    Store × Registry × HandlerResult String :=
  match deleteFromStore store pid with
  | (store1, true) => (store1, reg, .ok "Project deleted successfully")
  | (_, false) => (store, reg, .httpError 404 "Project not found")

/-- `backend/main.py`, `get_requirements` (GET
`/projects/{project_id}/requirements`): 404 when the project is missing,
400 when it has no `parsed_srs`, otherwise the stored `ParsedSRS`
payload. -/
def get_requirements (store : Store) (pid : String) :
    HandlerResult ParsedSRS :=
  match findProject store pid with
  | none => .httpError 404 "Project not found"
  | some p =>
      match p.parsed_srs with
      | none => .httpError 400 "Project not yet processed"
      | some srs => .ok srs

/-- The launch order of the four futures submitted to the thread pool in
`parallel_workers_node`. -/
def allRoles : List Role :=
  [.requirements, .architecture, .api_spec, .database_schema]

/-- A progress event as placed on a project's queue by
`update_progress` / the broadcast blocks of `process_project_task`
(`backend/main.py`): an event name plus the `data` payload fields the
stream loop inspects.  Wall-clock timestamps are not modelled. -/
structure QEvent where
  event : String
  status : String
  progress_message : String
  current_chunk : Nat
  total_chunks : Nat
deriving DecidableEq, Repr

/-- A server-sent event as yielded by the `event_generator` of
`stream_progress` (`backend/main.py`). -/
inductive SSEEvent where
  | errorEv (payload : String)
  | progressEv (status : String) (progress_message : String)
      (current_chunk : Nat) (total_chunks : Nat)
  | fromQueue (e : QEvent)
  | heartbeat
deriving DecidableEq, Repr

/-- What one iteration of the polling loop of `event_generator` observes:
either `queue.get_nowait()` succeeds with an event, or the queue is empty
and, after the 1.5 s sleep, the project is re-fetched from the store
(`none` when it was deleted meanwhile). -/
inductive LoopObs where
  | queued (e : QEvent)
  | empty (refetch : Option Project)
deriving DecidableEq, Repr

/-- Python's `x or default` for an optional string: `None` and the empty
string are falsy and yield the default. -/
def pyOrStr (o : Option String) (default : String) : String :=
  match o with
  | none => default
  | some s => if s = "" then default else s

/-- The `while` loop of `event_generator`: drain queued events (ending the
stream on a terminal `status`), otherwise re-check the authoritative
project record (yielding a final progress event when it turned terminal)
and emit a heartbeat.  The `max_duration` (300 s) cutoff and the transient
exception break are modelled by exhaustion of the observation trace. -/
def streamLoop : List LoopObs → List SSEEvent
  | [] => []
  | .queued e :: rest =>
      if e.status = "completed" ∨ e.status = "error" then [.fromQueue e]
      else .fromQueue e :: streamLoop rest
  | .empty refetch :: rest =>
      match refetch with
      | some p =>
          if p.status = "completed" ∨ p.status = "error" then
            [.progressEv p.status (pyOrStr p.progress_message "Done")
              (p.current_chunk.getD 0) (p.total_chunks.getD 0)]
          else .heartbeat :: streamLoop rest
      | none => .heartbeat :: streamLoop rest

/-- `backend/main.py`, `stream_progress` (GET
`/projects/{project_id}/progress-stream`): when the project id is unknown
the generator yields a single terminal `error` event with payload message
"Project not found" and returns; otherwise it creates the project's queue
entry (`defaultdict` access), yields the current authoritative state, and
runs the polling loop over the observation trace.  The `finally` block
always removes the project's registry entry.  The handler never writes to
the store; it is returned unchanged to make that explicit.
Returns (yielded events, store, registry). -/
def stream_progress (store : Store) (reg : Registry) (pid : String)
    (trace : List LoopObs) : List SSEEvent × Store × Registry :=
  match findProject store pid with
  | none => ([.errorEv "Project not found"], store, registryDel reg pid)
  | some p =>
      let reg1 := registryAdd reg pid
      let initial := SSEEvent.progressEv p.status
          (pyOrStr p.progress_message "Starting...")
          (p.current_chunk.getD 0) (p.total_chunks.getD 0)
      (initial :: streamLoop trace, store, registryDel reg1 pid)

/-- A role-keyed result map (the spec's `Compile(projectName, results)`
view): `some s` when the role is present in the map with content `s`,
`none` when the role is absent. -/
def toSlot : Option String → Slot
  | some s => .text s
  | none => .absent

/-- `compiler_node`'s document built from a role-keyed result map. -/
def compileDocR (name : String) (R : Role → Option String) : String :=
  compileDoc name (toSlot (R .requirements)) (toSlot (R .architecture))
    (toSlot (R .api_spec)) (toSlot (R .database_schema))

/-- The text rendered into the compiled document for one role: the
`state.get(key, default)` read of `compiler_node`, with the defaults of
the source template (`database_schema` defaults to the empty string). -/
def renderedSection (R : Role → Option String) : Role → String
  | .requirements => slotGet (toSlot (R .requirements)) "Requirements analysis pending..."
  | .architecture => slotGet (toSlot (R .architecture)) "System architecture pending..."
  | .api_spec => slotGet (toSlot (R .api_spec)) "Software architecture pending..."
  | .database_schema => slotGet (toSlot (R .database_schema)) ""

/-- The `initial_state` of `process_srs`
(`backend/core/langgraph_supervisor.py`): every output entry present with
value `None`. -/
def initialState (srs_content project_name : String) : SupervisorState :=
  { srs_content := srs_content
    project_name := project_name
    requirements := .pynone
    architecture := .pynone
    api_spec := .pynone
    database_schema := .pynone
    tech_doc := .pynone
    workers_completed := []
    workers_pending := ["requirements", "architecture", "api_spec", "database_schema"]
    all_workers_done := false
    error := none
    progress_messages := [] }

/-- Concrete fixture: a freshly uploaded project. -/
def uploadedProject : Project :=
  { id := "p1"
    name := "Demo"
    uploaded_at := "2026-01-01T00:00:00"
    file_name := "demo.txt"
    file_size := 4
    status := "uploaded"
    parsed_srs := none
    tech_doc := none
    progress_message := none
    current_chunk := none
    total_chunks := none }

/-- Concrete fixture: a project whose run is in flight. -/
def processingProject : Project :=
  { uploadedProject with
    id := "p2"
    status := "processing"
    progress_message := some "Starting processing..." }

/-- Concrete fixture: a successfully processed project, carrying the
`ParsedSRS` produced by `_state_to_parsed_srs`. -/
def completedProject : Project :=
  { uploadedProject with
    id := "p3"
    status := "completed"
    parsed_srs := some (state_to_parsed_srs (initialState "doc text" "Demo"))
    tech_doc := some "# Demo - Technical Documentation"
    progress_message := some "✅ Processing completed!" }

/-- C5: every project persisted with status `'processing'` (or the other
intermediate status `'parsing'`) is forcibly transitioned by the startup
routine to status `'error'` with a progress message containing
"interrupted"; afterwards no project is left in an intermediate state, so
no in-flight run is resumed. -/
theorem startup_interrupts_stuck_projects (store : Store) (p : Project)
    (hmem : p ∈ store)
    (hstat : p.status = "processing" ∨ p.status = "parsing") :
    (∃ p' ∈ startup_event store, p'.id = p.id ∧ p'.status = "error" ∧
      ∃ pre post, p'.progress_message = some (pre ++ "interrupted" ++ post)) ∧
    ∀ q ∈ startup_event store, q.status ≠ "processing" ∧ q.status ≠ "parsing" := by
  constructor
  · refine ⟨{ p with
        status := "error"
        progress_message := some "Processing interrupted - backend restarted" },
      ?_, rfl, rfl, "Processing ", " - backend restarted", by rfl⟩
    unfold startup_event
    have := List.mem_map_of_mem
      (f := fun q : Project =>
        if q.status = "processing" ∨ q.status = "parsing" then
          { q with
            status := "error"
            progress_message := some "Processing interrupted - backend restarted" }
        else q) hmem
    simpa [if_pos hstat] using this
  · intro q hq
    unfold startup_event at hq
    rcases List.mem_map.mp hq with ⟨x, _, hx⟩
    by_cases hc : x.status = "processing" ∨ x.status = "parsing"
    · rw [if_pos hc] at hx
      subst hx
      exact ⟨by simp, by simp⟩
    · rw [if_neg hc] at hx
      subst hx
      push_neg at hc
      exact hc

/-- Witness for C5 at a concrete store holding one in-flight project. -/
theorem startup_interrupts_stuck_projects_witness :
    (∃ p' ∈ startup_event [processingProject], p'.id = processingProject.id ∧
        p'.status = "error" ∧
        ∃ pre post, p'.progress_message = some (pre ++ "interrupted" ++ post)) ∧
    ∀ q ∈ startup_event [processingProject],
        q.status ≠ "processing" ∧ q.status ≠ "parsing" :=
  startup_interrupts_stuck_projects [processingProject] processingProject
    (List.mem_singleton.mpr rfl) (Or.inl rfl)

/-- C6: a `process` request on a project whose status is `'completed'`
returns a success response with status `'completed'`, schedules no new
JobRun (the scheduled-run list is unchanged) and leaves the store
unchanged. -/
theorem process_completed_is_noop (store : Store) (scheduled : List String)
    (pid : String) (p : Project)
    (hfind : findProject store pid = some p)
    (hstat : p.status = "completed") :
    process_project store scheduled pid =
      (store, scheduled,
        .ok ⟨pid, "completed", "Project already processed", none, none, none⟩) := by
  unfold process_project
  rw [hfind]
  simp [hstat]

/-- Witness for C6 at a concrete store holding one completed project. -/
theorem process_completed_is_noop_witness :
    process_project [completedProject] [] "p3" =
      ([completedProject], [],
        .ok ⟨"p3", "completed", "Project already processed", none, none, none⟩) :=
  process_completed_is_noop [completedProject] [] "p3" completedProject
    (by decide) (by decide)

/-- C8: subscribing to the progress stream with a project id missing from
the store yields exactly one terminal `error` event whose payload message
is "Project not found" — no further events, for every possible observation
trace — and the stored project state is unchanged. -/
theorem stream_unknown_project (store : Store) (reg : Registry)
    (pid : String) (trace : List LoopObs)
    (hfind : findProject store pid = none) :
    (stream_progress store reg pid trace).1 = [.errorEv "Project not found"] ∧
    (stream_progress store reg pid trace).2.1 = store := by
  unfold stream_progress
  rw [hfind]
  exact ⟨rfl, rfl⟩

/-- Witness for C8: an unknown id against a concrete one-project store. -/
theorem stream_unknown_project_witness :
    (stream_progress [uploadedProject] (fun _ => false) "nope"
        [.empty none]).1 = [.errorEv "Project not found"] ∧
    (stream_progress [uploadedProject] (fun _ => false) "nope"
        [.empty none]).2.1 = [uploadedProject] :=
  stream_unknown_project [uploadedProject] (fun _ => false) "nope"
    [.empty none] (by decide)

/-- C10: the `ParsedSRS` stored by a successful run and returned by the
requirements endpoint always has empty `functional_requirements`,
`non_functional_requirements`, `user_roles` and `use_cases` lists and the
fixed constant `purpose` and `scope` strings, whatever the workflow state
was. -/
theorem requirements_payload_constant (store : Store) (pid : String)
    (p : Project) (st : SupervisorState)
    (hfind : findProject store pid = some p)
    (hsrs : p.parsed_srs = some (state_to_parsed_srs st)) :
    get_requirements store pid = .ok (state_to_parsed_srs st) ∧
    (state_to_parsed_srs st).functional_requirements = [] ∧
    (state_to_parsed_srs st).non_functional_requirements = [] ∧
    (state_to_parsed_srs st).user_roles = [] ∧
    (state_to_parsed_srs st).use_cases = [] ∧
    (state_to_parsed_srs st).purpose = "AI-generated technical documentation" ∧
    (state_to_parsed_srs st).scope = "Full system scope" := by
  refine ⟨?_, rfl, rfl, rfl, rfl, rfl, rfl⟩
  unfold get_requirements
  rw [hfind]
  simp [hsrs]

/-- Witness for C10 at a concrete processed project. -/
theorem requirements_payload_constant_witness :
    get_requirements [completedProject] "p3" =
      .ok (state_to_parsed_srs (initialState "doc text" "Demo")) ∧
    (state_to_parsed_srs (initialState "doc text" "Demo")).functional_requirements = [] ∧
    (state_to_parsed_srs (initialState "doc text" "Demo")).non_functional_requirements = [] ∧
    (state_to_parsed_srs (initialState "doc text" "Demo")).user_roles = [] ∧
    (state_to_parsed_srs (initialState "doc text" "Demo")).use_cases = [] ∧
    (state_to_parsed_srs (initialState "doc text" "Demo")).purpose =
      "AI-generated technical documentation" ∧
    (state_to_parsed_srs (initialState "doc text" "Demo")).scope = "Full system scope" :=
  requirements_payload_constant [completedProject] "p3" completedProject
    (initialState "doc text" "Demo") (by decide) rfl

/-- C1 counterexample: two successive `process` calls on the same
uploaded project both succeed and each schedules a JobRun — the second
call is neither a no-op nor rejected, so two runs execute for the
project. -/
theorem double_process_schedules_two_runs :
    (process_project
        (process_project [uploadedProject] [] "p1").1
        (process_project [uploadedProject] [] "p1").2.1 "p1").2.1 = ["p1", "p1"] ∧
    (process_project
        (process_project [uploadedProject] [] "p1").1
        (process_project [uploadedProject] [] "p1").2.1 "p1").2.2 =
      .ok ⟨"p1", "processing", "Processing started", none, none, none⟩ := by
  constructor <;> decide

/-- C1 amended: a `process` request on an existing project whose status is
not `'completed'` — including one whose status is already `'processing'` —
always schedules a new JobRun, sets the status to `'processing'` and
reports success; the only guard is against status `'completed'`, so two
process calls on the same uploaded project both start runs. -/
theorem process_always_schedules_unless_completed (store : Store)
    (scheduled : List String) (pid : String) (p : Project)
    (hfind : findProject store pid = some p)
    (hstat : p.status ≠ "completed") :
    process_project store scheduled pid =
      (saveProject store { p with status := "processing" }, scheduled ++ [pid],
        .ok ⟨pid, "processing", "Processing started", none, none, none⟩) := by
  unfold process_project
  rw [hfind]
  simp [hstat]

/-- Witness for the amended C1: a `process` call on a project already in
status `'processing'` schedules another run. -/
theorem process_always_schedules_unless_completed_witness :
    process_project [processingProject] ["p2"] "p2" =
      (saveProject [processingProject] { processingProject with status := "processing" },
        ["p2", "p2"],
        .ok ⟨"p2", "processing", "Processing started", none, none, none⟩) :=
  process_always_schedules_unless_completed [processingProject] ["p2"] "p2"
    processingProject (by decide) (by decide)

/-- C7 counterexample: deleting a project does not remove its
progress-queue registry entry — after `delete_project` the project is gone
from the store but its registry entry survives, outliving the project. -/
theorem registry_entry_survives_delete :
    ((delete_project [uploadedProject]
        (registryAdd (fun _ => false) "p1") "p1").2.1) "p1" = true ∧
    findProject (delete_project [uploadedProject]
        (registryAdd (fun _ => false) "p1") "p1").1 "p1" = none := by
  constructor <;> decide

/-- C7 amended: the registry entry for a project id is removed when the
project's progress stream closes and when the project is reset, but
`delete_project` never touches the registry, so an entry can outlive its
deleted project. -/
theorem registry_lifecycle (store : Store) (reg : Registry) (pid : String)
    (trace : List LoopObs) (p : Project)
    (hfind : findProject store pid = some p) :
    ((stream_progress store reg pid trace).2.2) pid = false ∧
    ((reset_project store reg pid).2.1) pid = false ∧
    (delete_project store reg pid).2.1 = reg := by
  refine ⟨?_, ?_, ?_⟩
  · unfold stream_progress
    cases hf : findProject store pid <;> simp [registryDel]
  · unfold reset_project
    rw [hfind]
    simp [registryDel]
  · unfold delete_project
    rcases hd : deleteFromStore store pid with ⟨s1, b⟩
    cases b <;> simp

/-- Witness for the amended C7 at a concrete store and registry. -/
theorem registry_lifecycle_witness :
    ((stream_progress [uploadedProject] (fun _ => false) "p1" []).2.2) "p1" = false ∧
    ((reset_project [uploadedProject] (fun _ => false) "p1").2.1) "p1" = false ∧
    (delete_project [uploadedProject] (fun _ => false) "p1").2.1 = (fun _ => false) :=
  registry_lifecycle [uploadedProject] (fun _ => false) "p1" [] uploadedProject
    (by decide)

/-- C9: the compiled document text is a function of the project name and
the four worker result entries alone — two compiler invocations on states
agreeing on those five values produce identical `tech_doc` output,
whatever their other fields (source text, error, progress log, ...). -/
theorem compiler_deterministic (s1 s2 : SupervisorState)
    (hname : s1.project_name = s2.project_name)
    (hreq : s1.requirements = s2.requirements)
    (harch : s1.architecture = s2.architecture)
    (happi : s1.api_spec = s2.api_spec)
    (hdb : s1.database_schema = s2.database_schema) :
    (compiler_node s1).1.tech_doc = (compiler_node s2).1.tech_doc := by
  simp [compiler_node, appendMsg, hname, hreq, harch, happi, hdb]

/-- Witness for C9: two states with equal name and worker results but
different source text, progress log and error field compile to the same
document. -/
theorem compiler_deterministic_witness :
    (compiler_node { initialState "srs A" "Demo" with
        requirements := .text "R"
        architecture := .text "A"
        api_spec := .text "S"
        database_schema := .text "D" }).1.tech_doc =
    (compiler_node { initialState "totally different source" "Demo" with
        requirements := .text "R"
        architecture := .text "A"
        api_spec := .text "S"
        database_schema := .text "D"
        error := some "boom"
        progress_messages := ["x"] }).1.tech_doc :=
  compiler_deterministic _ _ rfl rfl rfl rfl rfl

@[simp]
theorem getRole_appendMsg (st : SupervisorState) (m : String) (r : Role) :
    getRole (appendMsg st m) r = getRole st r := by
  cases r <;> rfl

@[simp]
theorem error_appendMsg (st : SupervisorState) (m : String) :
    (appendMsg st m).error = st.error := rfl

@[simp]
theorem getRole_setRole_same (st : SupervisorState) (r : Role) (v : Slot) :
    getRole (setRole st r v) r = v := by
  cases r <;> rfl

theorem getRole_setRole_ne (st : SupervisorState) {r' r : Role} (v : Slot)
    (h : r' ≠ r) : getRole (setRole st r' v) r = getRole st r := by
  cases r <;> cases r' <;> first | rfl | exact absurd rfl h

@[simp]
theorem error_setRole (st : SupervisorState) (r : Role) (v : Slot) :
    (setRole st r v).error = st.error := by
  cases r <;> rfl

@[simp]
theorem getRole_setDone (st : SupervisorState) (r : Role) :
    getRole { st with all_workers_done := true } r = getRole st r := by
  cases r <;> rfl

@[simp]
theorem error_setDone (st : SupervisorState) :
    ({ st with all_workers_done := true } : SupervisorState).error = st.error := rfl

/-- The completion loop never touches the `error` entry. -/
theorem completionLoop_error (gen : Role → Except String String) :
    ∀ (order : List Role) (st : SupervisorState) (count : Nat),
      (completionLoop gen st count order).1.error = st.error := by
  intro order
  induction order with
  | nil => intro st count; rfl
  | cons r rest ih =>
      intro st count
      simp only [completionLoop]
      rw [ih]
      simp

/-- The completion loop leaves the entry of a role not in the completion
order unchanged. -/
theorem completionLoop_getRole_not_mem (gen : Role → Except String String) :
    ∀ (order : List Role) (st : SupervisorState) (count : Nat) (r : Role),
      r ∉ order →
      getRole (completionLoop gen st count order).1 r = getRole st r := by
  intro order
  induction order with
  | nil => intro st count r _; rfl
  | cons r' rest ih =>
      intro st count r hr
      have hne : r ≠ r' := fun h => hr (h ▸ List.mem_cons_self r' rest)
      have hrest : r ∉ rest := fun h => hr (List.mem_cons_of_mem r' h)
      simp only [completionLoop]
      rw [ih _ _ _ hrest]
      rw [getRole_appendMsg, getRole_setRole_ne _ _ (Ne.symm hne)]

/-- The completion loop records, for every role of the (duplicate-free)
completion order, the result of that role's worker. -/
theorem completionLoop_getRole_mem (gen : Role → Except String String) :
    ∀ (order : List Role) (st : SupervisorState) (count : Nat) (r : Role),
      r ∈ order → order.Nodup →
      getRole (completionLoop gen st count order).1 r =
        .text (runWorker gen r) := by
  intro order
  induction order with
  | nil => intro st count r hr _; exact absurd hr (List.not_mem_nil r)
  | cons r' rest ih =>
      intro st count r hr hnd
      rcases List.mem_cons.mp hr with h | h
      · subst h
        have hnotin : r ∉ rest := (List.nodup_cons.mp hnd).1
        simp only [completionLoop]
        rw [completionLoop_getRole_not_mem gen rest _ _ _ hnotin]
        simp
      · exact (by
          simp only [completionLoop]
          exact ih _ _ _ h (List.nodup_cons.mp hnd).2)

/-- The percent values emitted by the completion loop are determined by
the completion counter alone: position `i` (0-based) of the loop over
`order` carries `pct (count + i + 1)`. -/
theorem completionLoop_pcts (gen : Role → Except String String) :
    ∀ (order : List Role) (st : SupervisorState) (count : Nat),
      ((completionLoop gen st count order).2).map Prod.fst =
        (List.range order.length).map (fun i => pct (count + i + 1)) := by
  intro order
  induction order with
  | nil => intro st count; rfl
  | cons r rest ih =>
      intro st count
      simp only [completionLoop, List.length_cons, List.map_cons]
      rw [ih]
      rw [List.range_succ_eq_map, List.map_cons, List.map_map]
      refine congrArg₂ _ (by simp) ?_
      apply List.map_congr_left
      intro i _
      simp only [Function.comp_apply]
      congr 1
      omega

/-- C3: when exactly one worker's generation call raises, that worker's
entry in the result map is the code's error encoding `"Error: " + message`
for its role, the three sibling workers still complete with their results
recorded, and the run is not marked failed: the state's `error` entry
stays unset. -/
theorem single_worker_failure_isolated (st : SupervisorState)
    (gen : Role → Except String String) (order : List Role) (elapsed : String)
    (r0 : Role) (e : String) (t : Role → String)
    (horder : order.Perm allRoles)
    (herr : st.error = none)
    (hfail : gen r0 = .error e)
    (hok : ∀ r, r ≠ r0 → gen r = .ok (t r)) :
    getRole (parallel_workers_node st gen order elapsed).1 r0 =
      .text ("Error: " ++ e) ∧
    (∀ r, r ≠ r0 →
      getRole (parallel_workers_node st gen order elapsed).1 r = .text (t r)) ∧
    (parallel_workers_node st gen order elapsed).1.error = none := by
  have hmem : ∀ r : Role, r ∈ order := fun r =>
    (horder.mem_iff).mpr (by cases r <;> decide)
  have hnd : order.Nodup := (horder.nodup_iff).mpr (by decide)
  refine ⟨?_, fun r hr => ?_, ?_⟩
  · simp only [parallel_workers_node, getRole_appendMsg, getRole_setDone]
    rw [completionLoop_getRole_mem gen order _ 0 r0 (hmem r0) hnd]
    simp [runWorker, hfail]
  · simp only [parallel_workers_node, getRole_appendMsg, getRole_setDone]
    rw [completionLoop_getRole_mem gen order _ 0 r (hmem r) hnd]
    simp [runWorker, hok r hr]
  · simp only [parallel_workers_node, error_appendMsg, error_setDone]
    rw [completionLoop_error]
    simp [herr]

/-- Witness for C3: a dispatch in which only the architecture worker
fails. -/
theorem single_worker_failure_isolated_witness :
    getRole (parallel_workers_node (initialState "src" "Demo")
        (fun r => if r = .architecture then .error "boom" else .ok "text")
        allRoles "1.0").1 .architecture = .text ("Error: " ++ "boom") ∧
    (∀ r, r ≠ Role.architecture →
      getRole (parallel_workers_node (initialState "src" "Demo")
          (fun r => if r = .architecture then .error "boom" else .ok "text")
          allRoles "1.0").1 r = .text ((fun _ => "text") r)) ∧
    (parallel_workers_node (initialState "src" "Demo")
        (fun r => if r = .architecture then .error "boom" else .ok "text")
        allRoles "1.0").1.error = none :=
  single_worker_failure_isolated (initialState "src" "Demo")
    (fun r => if r = .architecture then .error "boom" else .ok "text")
    allRoles "1.0" .architecture "boom" (fun _ => "text")
    (List.Perm.refl _) rfl rfl
    (fun r hr => by cases r <;> first | rfl | exact absurd rfl hr)

/-- C4: for every completion order of the four workers, the
per-completion progress callbacks carry the percentages 25, 50, 75, 100
in completion order — a strictly increasing sequence ending at 100,
regardless of which worker finishes in which position. -/
theorem completion_percentages (gen : Role → Except String String)
    (st : SupervisorState) (order : List Role)
    (horder : order.Perm allRoles) :
    (completionCallbacks gen st order).map Prod.fst = [25, 50, 75, 100] ∧
    List.Chain' (· < ·) ((completionCallbacks gen st order).map Prod.fst) ∧
    ((completionCallbacks gen st order).map Prod.fst).getLast? = some 100 := by
  have hlen : order.length = 4 := by
    have := horder.length_eq
    simpa [allRoles] using this
  have h := completionLoop_pcts gen order st 0
  rw [hlen] at h
  have h4 : (completionCallbacks gen st order).map Prod.fst = [25, 50, 75, 100] := by
    rw [completionCallbacks, h]
    decide
  refine ⟨h4, ?_, ?_⟩
  · rw [h4]
    simp [List.chain'_cons]
  · rw [h4]
    rfl

/-- Witness for C4 at a concrete completion order (database first,
requirements last) and a dispatch with one failing worker. -/
theorem completion_percentages_witness :
    (completionCallbacks
        (fun r => if r = .api_spec then .error "rate limit" else .ok "body")
        (initialState "src" "Demo")
        [.database_schema, .api_spec, .architecture, .requirements]).map Prod.fst =
      [25, 50, 75, 100] ∧
    List.Chain' (· < ·) ((completionCallbacks
        (fun r => if r = .api_spec then .error "rate limit" else .ok "body")
        (initialState "src" "Demo")
        [.database_schema, .api_spec, .architecture, .requirements]).map Prod.fst) ∧
    ((completionCallbacks
        (fun r => if r = .api_spec then .error "rate limit" else .ok "body")
        (initialState "src" "Demo")
        [.database_schema, .api_spec, .architecture, .requirements]).map
          Prod.fst).getLast? = some 100 :=
  completion_percentages
    (fun r => if r = .api_spec then .error "rate limit" else .ok "body")
    (initialState "src" "Demo")
    [.database_schema, .api_spec, .architecture, .requirements]
    (by decide)

/-- C2 counterexample: with the `database_schema` role absent from the
result map, its rendered section is the empty string — no placeholder at
all: the compiled document is character-for-character identical to the one
compiled with the database role present with empty content, so no
"human-readable placeholder" can mark that role's absence. -/
theorem missing_database_schema_has_no_placeholder :
    renderedSection (fun _ => none) .database_schema = "" ∧
    compileDocR "P" (fun _ => none) =
      compileDocR "P" (fun r => if r = .database_schema then some "" else none) := by
  exact ⟨rfl, rfl⟩

/-- C2 amended: compiling never raises for any result map `R` (it is a
total function); each of the four sections appears in the output document;
a role present in `R` renders its exact content (including the
`"Error: ..."` strings recorded for failed workers); an absent
`requirements`, `architecture` or `api_spec` renders its human-readable
placeholder, but an absent `database_schema` renders the empty string
rather than a placeholder. -/
theorem compile_partial_results (name : String) (R : Role → Option String) :
    (∀ r, ∃ pre post, compileDocR name R = pre ++ renderedSection R r ++ post) ∧
    (∀ r s, R r = some s → renderedSection R r = s) ∧
    (R .requirements = none →
      renderedSection R .requirements = "Requirements analysis pending...") ∧
    (R .architecture = none →
      renderedSection R .architecture = "System architecture pending...") ∧
    (R .api_spec = none →
      renderedSection R .api_spec = "Software architecture pending...") ∧
    (R .database_schema = none → renderedSection R .database_schema = "") := by
  refine ⟨?_, ?_, ?_, ?_, ?_, ?_⟩
  · intro r
    cases r
    · exact ⟨"# " ++ name ++ " - Technical Documentation\n\n## Quick Links\n\n| Item | Link |\n|------|------|\n| Project | "
        ++ name
        ++ " |\n\n## About This Document\n\nThe purpose of this technical document is to provide comprehensive technical specifications and architecture documentation for "
        ++ name
        ++ ". This document highlights all technical deliverables, infrastructure decisions, and implementation details.\n\n## Overview of the Project\n\n"
        ++ name
        ++ " is documented herein with complete technical specifications extracted from the Software Requirements Specification (SRS) document.\n\n---\n\n# Technical Requirements\n\n",
        "\n\n---\n\n# System Design\n\n"
        ++ renderedSection R .architecture
        ++ "\n\n---\n\n# Software Architecture\n\n"
        ++ renderedSection R .api_spec
        ++ "\n\n"
        ++ renderedSection R .database_schema
        ++ "\n\n---\n\n## Useful Links\n\n[Additional project resources and documentation links can be added here]\n",
        by simp [compileDocR, compileDoc, renderedSection, String.append_assoc]⟩
    · exact ⟨"# " ++ name ++ " - Technical Documentation\n\n## Quick Links\n\n| Item | Link |\n|------|------|\n| Project | "
        ++ name
        ++ " |\n\n## About This Document\n\nThe purpose of this technical document is to provide comprehensive technical specifications and architecture documentation for "
        ++ name
        ++ ". This document highlights all technical deliverables, infrastructure decisions, and implementation details.\n\n## Overview of the Project\n\n"
        ++ name
        ++ " is documented herein with complete technical specifications extracted from the Software Requirements Specification (SRS) document.\n\n---\n\n# Technical Requirements\n\n"
        ++ renderedSection R .requirements
        ++ "\n\n---\n\n# System Design\n\n",
        "\n\n---\n\n# Software Architecture\n\n"
        ++ renderedSection R .api_spec
        ++ "\n\n"
        ++ renderedSection R .database_schema
        ++ "\n\n---\n\n## Useful Links\n\n[Additional project resources and documentation links can be added here]\n",
        by simp [compileDocR, compileDoc, renderedSection, String.append_assoc]⟩
    · exact ⟨"# " ++ name ++ " - Technical Documentation\n\n## Quick Links\n\n| Item | Link |\n|------|------|\n| Project | "
        ++ name
        ++ " |\n\n## About This Document\n\nThe purpose of this technical document is to provide comprehensive technical specifications and architecture documentation for "
        ++ name
        ++ ". This document highlights all technical deliverables, infrastructure decisions, and implementation details.\n\n## Overview of the Project\n\n"
        ++ name
        ++ " is documented herein with complete technical specifications extracted from the Software Requirements Specification (SRS) document.\n\n---\n\n# Technical Requirements\n\n"
        ++ renderedSection R .requirements
        ++ "\n\n---\n\n# System Design\n\n"
        ++ renderedSection R .architecture
        ++ "\n\n---\n\n# Software Architecture\n\n",
        "\n\n"
        ++ renderedSection R .database_schema
        ++ "\n\n---\n\n## Useful Links\n\n[Additional project resources and documentation links can be added here]\n",
        by simp [compileDocR, compileDoc, renderedSection, String.append_assoc]⟩
    · exact ⟨"# " ++ name ++ " - Technical Documentation\n\n## Quick Links\n\n| Item | Link |\n|------|------|\n| Project | "
        ++ name
        ++ " |\n\n## About This Document\n\nThe purpose of this technical document is to provide comprehensive technical specifications and architecture documentation for "
        ++ name
        ++ ". This document highlights all technical deliverables, infrastructure decisions, and implementation details.\n\n## Overview of the Project\n\n"
        ++ name
        ++ " is documented herein with complete technical specifications extracted from the Software Requirements Specification (SRS) document.\n\n---\n\n# Technical Requirements\n\n"
        ++ renderedSection R .requirements
        ++ "\n\n---\n\n# System Design\n\n"
        ++ renderedSection R .architecture
        ++ "\n\n---\n\n# Software Architecture\n\n"
        ++ renderedSection R .api_spec
        ++ "\n\n",
        "\n\n---\n\n## Useful Links\n\n[Additional project resources and documentation links can be added here]\n",
        by simp [compileDocR, compileDoc, renderedSection, String.append_assoc]⟩
  · intro r s h
    cases r <;> simp [renderedSection, h, toSlot, slotGet]
  · intro h
    simp [renderedSection, h, toSlot, slotGet]
  · intro h
    simp [renderedSection, h, toSlot, slotGet]
  · intro h
    simp [renderedSection, h, toSlot, slotGet]
  · intro h
    simp [renderedSection, h, toSlot, slotGet]

/-- Witness for the amended C2: a result map holding only the
requirements section renders that exact content and an empty database
section. -/
theorem compile_partial_results_witness :
    renderedSection (fun r => if r = Role.requirements then some "REQ" else none)
      .requirements = "REQ" ∧
    renderedSection (fun r => if r = Role.requirements then some "REQ" else none)
      .database_schema = "" :=
  ⟨(compile_partial_results "P"
      (fun r => if r = Role.requirements then some "REQ" else none)).2.1
      .requirements "REQ" rfl,
   (compile_partial_results "P"
      (fun r => if r = Role.requirements then some "REQ" else none)).2.2.2.2.2 rfl⟩

end SrsAgent
